import Mathlib

/-!
Verification development for the `encoding-processor` Go library.

The definitions below are a shallow embedding of the library's source:

* `detector.go` — multi-tier encoding detection (`DetectEncoding`) with a
  BOM tier (`detectBOM`), a strict UTF-8 tier (`detectUTF8`), a statistical
  tier delegated to the external `chardet` oracle, and a SHA-256–keyed
  result cache (`getCachedResult` / `cacheResult` / `generateCacheKey`).
* `converter.go` — conversion pipeline (`Convert`, `doTransform`,
  `transformSmallData`, `transformLargeData`, `transformWithErrorRecovery`).
* `processor.go` — the composed `SmartConvert` operation.
* the file processor — `writeFileWithRecovery` / `restoreFromBackup`.

Bytes are modelled as `Nat` values below 256 inside `List Nat`.  The code
stores confidences in `float64`, but every confidence it manufactures is an
exact integer count of hundredths (1.00, 0.99, 0.95, 0.85, and the chardet
integer percentage divided by 100), and the configured thresholds in the
repository are as well (0.8, 0.6, 0.9); comparisons between such values in
`float64` coincide with comparisons of the integer hundredths, so
confidence is modelled as `Nat` hundredths throughout.

External collaborators (the chardet oracle, the x/text codec tables, the
filesystem) are parameters of the embedded functions, exactly the points
where the Go code calls out of the repository.
-/

namespace EncProc

/-! ## Encoding labels and defaults (interfaces.go constants) -/

def EncodingUTF8 : String := "UTF-8"
def EncodingUTF16 : String := "UTF-16"
def EncodingUTF16LE : String := "UTF-16LE"
def EncodingUTF16BE : String := "UTF-16BE"
def EncodingUTF32 : String := "UTF-32"
def EncodingUTF32LE : String := "UTF-32LE"
def EncodingUTF32BE : String := "UTF-32BE"
def EncodingGBK : String := "GBK"
def EncodingGB2312 : String := "GB2312"
def EncodingGB18030 : String := "GB18030"
def EncodingBIG5 : String := "BIG5"
def EncodingShiftJIS : String := "SHIFT_JIS"
def EncodingEUCJP : String := "EUC-JP"
def EncodingEUCKR : String := "EUC-KR"
def EncodingISO88591 : String := "ISO-8859-1"
def EncodingISO88592 : String := "ISO-8859-2"
def EncodingISO88595 : String := "ISO-8859-5"
def EncodingISO885915 : String := "ISO-8859-15"
def EncodingWindows1250 : String := "WINDOWS-1250"
def EncodingWindows1251 : String := "WINDOWS-1251"
def EncodingWindows1252 : String := "WINDOWS-1252"
def EncodingWindows1254 : String := "WINDOWS-1254"
def EncodingKOI8R : String := "KOI8-R"
def EncodingCP866 : String := "CP866"
def EncodingMacintosh : String := "MACINTOSH"

def DefaultSampleSize : Nat := 8192
/-- Default minimum confidence 0.8, in hundredths. -/
def DefaultMinConfidence : Nat := 80
def DefaultBufferSize : Nat := 8192
def DefaultChunkSize : Nat := 1024 * 1024
def DefaultCacheSize : Nat := 1000

/-! ## Detector data model (types.go, config.go) -/

/-- `DetectionResult` of types.go.  The `Details` map of the Go struct is
represented by the concrete keys the detector writes into it
(`method`, `bom`, `has_non_ascii`).  Confidence is in hundredths. -/
structure DetectionResult where
  encoding : String
  confidence : Nat
  language : String := ""
  method : String := ""
  bom : Bool := false
  hasNonASCII : Bool := false
  deriving Repr, DecidableEq

/-- `DetectorConfig` of config.go (the fields `DetectEncoding` reads).
`minConfidence` and `cacheTTL` are in hundredths resp. abstract time units. -/
structure DetectorConfig where
  sampleSize : Nat
  minConfidence : Nat
  supportedEncodings : List String
  enableCache : Bool
  cacheSize : Nat
  cacheTTL : Nat
  preferredEncodings : List String
  deriving Repr

/-! ## Strict UTF-8 tier (detector.go detectUTF8, Go unicode/utf8.Valid) -/

/-- Whether a byte is a UTF-8 continuation byte (0x80–0xBF). -/
def isCont (b : Nat) : Bool := 0x80 ≤ b && b ≤ 0xBF

/-- Leading-byte classification of Go's `unicode/utf8` accept-range table:
for a leading byte, the number of continuation bytes and the allowed range
of the second byte.  `none` for bytes that can never start a sequence. -/
def utf8Accept (b : Nat) : Option (Nat × Nat × Nat) :=
  if b ≤ 0x7F then some (0, 0, 0)
  else if b < 0xC2 then none
  else if b ≤ 0xDF then some (1, 0x80, 0xBF)
  else if b = 0xE0 then some (2, 0xA0, 0xBF)
  else if b ≤ 0xEC then some (2, 0x80, 0xBF)
  else if b = 0xED then some (2, 0x80, 0x9F)
  else if b ≤ 0xEF then some (2, 0x80, 0xBF)
  else if b = 0xF0 then some (3, 0x90, 0xBF)
  else if b ≤ 0xF3 then some (3, 0x80, 0xBF)
  else if b = 0xF4 then some (3, 0x80, 0x8F)
  else none

/-- Byte-at-a-time runner for `utf8Valid`: `pending` is the list of
(lo, hi) ranges the next continuation bytes must fall into. -/
def utf8ValidFrom : List (Nat × Nat) → List Nat → Bool
  | [], [] => true
  | _ :: _, [] => false
  | (lo, hi) :: ps, b :: rest => (lo ≤ b && b ≤ hi) && utf8ValidFrom ps rest
  | [], b :: rest =>
    match utf8Accept b with
    | none => false
    | some (0, _, _) => utf8ValidFrom [] rest
    | some (1, lo, hi) => utf8ValidFrom [(lo, hi)] rest
    | some (2, lo, hi) => utf8ValidFrom [(lo, hi), (0x80, 0xBF)] rest
    | some (_ + 3, lo, hi) => utf8ValidFrom [(lo, hi), (0x80, 0xBF), (0x80, 0xBF)] rest

/-- Go's `utf8.Valid` over a byte list: every position starts a well-formed
UTF-8 sequence (no surrogates, no overlong forms, max U+10FFFF). -/
def utf8Valid (data : List Nat) : Bool := utf8ValidFrom [] data

/-- detector.go `detectUTF8`: on a valid-UTF-8 sample return UTF-8 with
confidence 0.99 when a byte above 127 occurs, else 0.85. -/
def detectUTF8 (data : List Nat) : Option DetectionResult :=
  if data.length = 0 then none
  else if utf8Valid data then
    let hasNonASCII := data.any (fun b => 127 < b)
    some { encoding := EncodingUTF8
           confidence := if hasNonASCII then 99 else 85
           method := "utf8_validation"
           hasNonASCII := hasNonASCII }
  else none

/-! ## BOM tier (detector.go detectBOM) -/

/-- detector.go `detectBOM`: exact-prefix match of the UTF-8, UTF-16LE/BE
and UTF-32LE/BE byte-order marks.  The ordered patterns translate the
source's guarded index checks one-for-one: inputs shorter than 2 bytes
fall through to `none`; the UTF-8 mark needs 3 bytes; an FF FE prefix is
UTF-32LE when followed by two zero bytes (4 bytes present) and UTF-16LE
otherwise; the UTF-32BE mark needs its full 4 bytes. -/
def detectBOM : List Nat → Option DetectionResult
  | 0xEF :: 0xBB :: 0xBF :: _ =>
    some { encoding := EncodingUTF8, confidence := 100, method := "bom_detection", bom := true }
  | 0xFF :: 0xFE :: 0x00 :: 0x00 :: _ =>
    some { encoding := EncodingUTF32LE, confidence := 100, method := "bom_detection", bom := true }
  | 0xFF :: 0xFE :: _ =>
    some { encoding := EncodingUTF16LE, confidence := 100, method := "bom_detection", bom := true }
  | 0xFE :: 0xFF :: _ =>
    some { encoding := EncodingUTF16BE, confidence := 100, method := "bom_detection", bom := true }
  | 0x00 :: 0x00 :: 0xFE :: 0xFF :: _ =>
    some { encoding := EncodingUTF32BE, confidence := 100, method := "bom_detection", bom := true }
  | _ => none

/-! ## Statistical tier (detector.go, external chardet oracle) -/

/-- One entry of the external chardet oracle's ranked output
(`chardet.Result`): charset name, integer confidence 0–100, language. -/
structure ChardetResult where
  charset : String
  confidence : Nat
  language : String := ""
  deriving Repr, DecidableEq

/-- The external statistical oracle: `chardet.NewTextDetector().DetectAll`.
A parameter of the detector, matching the library's external dependency. -/
def Oracle : Type := List Nat → Except Unit (List ChardetResult)

/-- detector.go `normalizeEncodingName`: chardet charset names mapped to
the library's canonical labels (GB2312 folded into GBK). -/
def normalizeEncodingName (charset : String) : String :=
  if charset = "UTF-8" then EncodingUTF8
  else if charset = "UTF-16" then EncodingUTF16
  else if charset = "UTF-16LE" then EncodingUTF16LE
  else if charset = "UTF-16BE" then EncodingUTF16BE
  else if charset = "UTF-32" then EncodingUTF32
  else if charset = "UTF-32LE" then EncodingUTF32LE
  else if charset = "UTF-32BE" then EncodingUTF32BE
  else if charset = "GB2312" then EncodingGBK
  else if charset = "GBK" then EncodingGBK
  else if charset = "GB18030" then EncodingGB18030
  else if charset = "Big5" then EncodingBIG5
  else if charset = "Shift_JIS" then EncodingShiftJIS
  else if charset = "EUC-JP" then EncodingEUCJP
  else if charset = "EUC-KR" then EncodingEUCKR
  else if charset = "ISO-8859-1" then EncodingISO88591
  else if charset = "windows-1252" then EncodingWindows1252
  else if charset = "KOI8-R" then EncodingKOI8R
  else charset

/-- Build the `DetectionResult` for a chardet entry under a preferred label
(first loop of `selectBestResult`). -/
def chardetPreferredResult (preferred : String) (r : ChardetResult) : DetectionResult :=
  { encoding := preferred
    confidence := r.confidence
    language := r.language
    method := "chardet" }

/-- Build the `DetectionResult` for the top-ranked chardet entry
(second half of `selectBestResult`). -/
def chardetBestResult (r : ChardetResult) : DetectionResult :=
  { encoding := normalizeEncodingName r.charset
    confidence := r.confidence
    language := r.language
    method := "chardet" }

/-- Inner loop of `selectBestResult`: the first oracle entry whose
normalized charset equals `preferred`. -/
def findPreferred (preferred : String) : List ChardetResult → Option ChardetResult
  | [] => none
  | r :: rest =>
    if normalizeEncodingName r.charset = preferred then some r
    else findPreferred preferred rest

/-- Outer loop of `selectBestResult` over the configured preferred list. -/
def findFirstPreferred (results : List ChardetResult) :
    List String → Option (String × ChardetResult)
  | [] => none
  | p :: ps =>
    match findPreferred p results with
    | some r => some (p, r)
    | none => findFirstPreferred results ps

/-- detector.go `selectBestResult`: a configured preferred encoding found
among the oracle's candidates wins outright; otherwise the top-ranked
candidate is taken. -/
def selectBestResult (cfg : DetectorConfig) (results : List ChardetResult) :
    Option DetectionResult :=
  match results with
  | [] => none
  | best :: _ =>
    match findFirstPreferred results cfg.preferredEncodings with
    | some (p, r) => some (chardetPreferredResult p r)
    | none => some (chardetBestResult best)

/-- detector.go `isEncodingSupported`: an empty configured list means no
restriction; otherwise membership in the list. -/
def isEncodingSupported (cfg : DetectorConfig) (encoding : String) : Bool :=
  if cfg.supportedEncodings.length = 0 then true
  else cfg.supportedEncodings.contains encoding

/-! ## SHA-256 (detector.go generateCacheKey uses crypto/sha256) -/

/-- 32-bit modular addition. -/
def add32 (a b : Nat) : Nat := (a + b) % 4294967296

/-- 32-bit right rotation. -/
def rotr32 (n x : Nat) : Nat := ((x >>> n) ||| (x <<< (32 - n))) % 4294967296

/-- SHA-256 Σ₀. -/
def bigSigma0 (x : Nat) : Nat := rotr32 2 x ^^^ rotr32 13 x ^^^ rotr32 22 x

/-- SHA-256 Σ₁. -/
def bigSigma1 (x : Nat) : Nat := rotr32 6 x ^^^ rotr32 11 x ^^^ rotr32 25 x

/-- SHA-256 σ₀. -/
def smallSigma0 (x : Nat) : Nat := rotr32 7 x ^^^ rotr32 18 x ^^^ (x >>> 3)

/-- SHA-256 σ₁. -/
def smallSigma1 (x : Nat) : Nat := rotr32 17 x ^^^ rotr32 19 x ^^^ (x >>> 10)

/-- SHA-256 Ch. -/
def chFn (x y z : Nat) : Nat := (x &&& y) ^^^ ((x ^^^ 4294967295) &&& z)

/-- SHA-256 Maj. -/
def majFn (x y z : Nat) : Nat := (x &&& y) ^^^ (x &&& z) ^^^ (y &&& z)

/-- The 64 SHA-256 round constants of FIPS 180-4, written in decimal. -/
def sha256K : List Nat :=
  [1116352408, 1899447441, 3049323471, 3921009573, 961987163,
   1508970993, 2453635748, 2870763221, 3624381080, 310598401,
   607225278, 1426881987, 1925078388, 2162078206, 2614888103,
   3248222580, 3835390401, 4022224774, 264347078, 604807628,
   770255983, 1249150122, 1555081692, 1996064986, 2554220882,
   2821834349, 2952996808, 3210313671, 3336571891, 3584528711,
   113926993, 338241895, 666307205, 773529912, 1294757372,
   1396182291, 1695183700, 1986661051, 2177026350, 2456956037,
   2730485921, 2820302411, 3259730800, 3345764771, 3516065817,
   3600352804, 4094571909, 275423344, 430227734, 506948616,
   659060556, 883997877, 958139571, 1322822218, 1537002063,
   1747873779, 1955562222, 2024104815, 2227730452, 2361852424,
   2428436474, 2756734187, 3204031479, 3329325298]

/-- The eight SHA-256 initial hash words of FIPS 180-4, in decimal. -/
def sha256H0 : List Nat :=
  [1779033703, 3144134277, 1013904242,
   2773480762, 1359893119, 2600822924,
   528734635, 1541459225]

/-- Merkle–Damgård padding: append 0x80, zero bytes to 56 mod 64, then the
bit length as 8 big-endian bytes. -/
def sha256Pad (msg : List Nat) : List Nat :=
  let ml := 8 * msg.length
  let k := (64 + 56 - (msg.length + 1) % 64) % 64
  msg ++ [0x80] ++ List.replicate k 0 ++
    [(ml >>> 56) &&& 255, (ml >>> 48) &&& 255, (ml >>> 40) &&& 255, (ml >>> 32) &&& 255,
     (ml >>> 24) &&& 255, (ml >>> 16) &&& 255, (ml >>> 8) &&& 255, ml &&& 255]

/-- Big-endian 4-byte groups to 32-bit words. -/
def bytesToWords : List Nat → List Nat
  | b0 :: b1 :: b2 :: b3 :: rest =>
    (b0 * 16777216 + b1 * 65536 + b2 * 256 + b3) :: bytesToWords rest
  | _ => []

/-- One message-schedule extension step, appending word W[t] computed from
W[t-2], W[t-7], W[t-15], W[t-16]. -/
def scheduleStep (ws : List Nat) : List Nat :=
  ws ++ [add32 (add32 (smallSigma1 (ws.getD (ws.length - 2) 0)) (ws.getD (ws.length - 7) 0))
              (add32 (smallSigma0 (ws.getD (ws.length - 15) 0)) (ws.getD (ws.length - 16) 0))]

/-- Iterate the schedule extension. -/
def extendW : Nat → List Nat → List Nat
  | 0, ws => ws
  | n + 1, ws => extendW n (scheduleStep ws)

/-- One SHA-256 compression round on state [a,b,c,d,e,f,g,h]. -/
def roundStep (st : List Nat) (k w : Nat) : List Nat :=
  match st with
  | [a, b, c, d, e, f, g, h] =>
    let t1 := add32 (add32 (add32 h (bigSigma1 e)) (add32 (chFn e f g) k)) w
    let t2 := add32 (bigSigma0 a) (majFn a b c)
    [add32 t1 t2, a, b, c, add32 d t1, e, f, g]
  | other => other

/-- Fuel-indexed worker for `chunksOf` (structural recursion on the fuel,
so that closed instances reduce in the kernel). -/
def chunksOfFuel : Nat → Nat → List α → List (List α)
  | 0, _, _ => []
  | _ + 1, _, [] => []
  | fuel + 1, n, l@(_ :: _) =>
    match n with
    | 0 => [l]
    | m + 1 => l.take (m + 1) :: chunksOfFuel fuel (m + 1) (l.drop (m + 1))

/-- Split a list into chunks of `n` elements (the last may be shorter).
At `n = 0` the Go loops this models would not terminate; every use below
has `n ≥ 1`, where one chunk is produced per step. -/
def chunksOf (n : Nat) (l : List α) : List (List α) := chunksOfFuel l.length n l

/-- Compress one 64-byte block into the running hash state. -/
def compressBlock (h : List Nat) (block : List Nat) : List Nat :=
  let ws := extendW 48 (bytesToWords block)
  let st := (List.zip sha256K ws).foldl (fun s kw => roundStep s kw.1 kw.2) h
  List.zipWith add32 h st

/-- SHA-256 digest as eight 32-bit words. -/
def sha256Words (msg : List Nat) : List Nat :=
  (chunksOf 64 (sha256Pad msg)).foldl compressBlock sha256H0

/-- Lowercase hex digit. -/
def hexChar (n : Nat) : Char :=
  if n < 10 then Char.ofNat (48 + n) else Char.ofNat (87 + n)

/-- A 32-bit word as 8 lowercase hex characters. -/
def wordToHex (w : Nat) : List Char :=
  [hexChar ((w >>> 28) &&& 15), hexChar ((w >>> 24) &&& 15),
   hexChar ((w >>> 20) &&& 15), hexChar ((w >>> 16) &&& 15),
   hexChar ((w >>> 12) &&& 15), hexChar ((w >>> 8) &&& 15),
   hexChar ((w >>> 4) &&& 15), hexChar (w &&& 15)]

/-- detector.go `generateCacheKey`: `fmt.Sprintf("%x", sha256.Sum256(data))`,
the lowercase-hex SHA-256 digest of the data. -/
def generateCacheKey (data : List Nat) : String :=
  String.mk ((sha256Words data).flatMap wordToHex)

/-! ## Detection cache (detector.go detectionCache) -/

/-- `cacheEntry` of detector.go: a result plus its creation timestamp
(time modelled as abstract `Nat` instants). -/
structure CacheEntry where
  result : DetectionResult
  timestamp : Nat
  deriving Repr, DecidableEq

/-- The cache's `map[string]*cacheEntry`, as an association list with at
most one entry per key.  Go's map iteration order is unspecified; the list
order stands in for one iteration order. -/
def CacheState : Type := List (String × CacheEntry)

/-- detector.go `getCachedResult`: hash the queried bytes, look the key up,
and treat an entry older than the TTL as absent. -/
def getCachedResult (cfg : DetectorConfig) (cache : CacheState) (now : Nat)
    (data : List Nat) : Option DetectionResult :=
  let key := generateCacheKey data
  match cache.lookup key with
  | none => none
  | some entry => if cfg.cacheTTL < now - entry.timestamp then none else some entry.result

/-- detector.go `evictOldestEntry`: drop the entry with the oldest
timestamp (the first such in iteration order, since the Go code replaces
the candidate only on strictly older timestamps). -/
def evictOldestEntry (cache : CacheState) : CacheState :=
  match cache.foldl
      (fun acc kv =>
        match acc with
        | none => some kv
        | some best => if kv.2.timestamp < best.2.timestamp then some kv else some best)
      none with
  | none => cache
  | some oldest => cache.filter (fun kv => kv.1 ≠ oldest.1)

/-- detector.go `cacheResult`: a no-op without a cache; otherwise evict the
oldest entry when at capacity, then store the result under the hash of the
bytes given to it. -/
def cacheResult (cfg : DetectorConfig) (cache : CacheState) (now : Nat)
    (data : List Nat) (result : DetectionResult) : CacheState :=
  if !cfg.enableCache then cache
  else
    let key := generateCacheKey data
    let cache := if cfg.cacheSize ≤ cache.length then evictOldestEntry cache else cache
    (key, ⟨result, now⟩) :: cache.filter (fun kv => kv.1 ≠ key)

/-! ## DetectEncoding (detector.go) -/

/-- The error kinds `DetectEncoding` can surface (errors.go sentinels plus
the two `fmt.Errorf` cases). -/
inductive DetectErrKind where
  | invalidInput
  | chardetFailed
  | detectionFailed
  | unsupportedEncoding
  | confidenceTooLow
  deriving Repr, DecidableEq

/-- `EncodingError` of errors.go, with `Err` restricted to the kinds the
detector produces. -/
structure EncodingError where
  op : String
  encoding : String := ""
  errKind : DetectErrKind
  deriving Repr, DecidableEq

/-- The observable outcome of one `DetectEncoding` call: the returned value,
the cache afterwards, and whether the chardet oracle resp. the UTF-8
validator tier ran (the spec's injected call counter). -/
structure DetectOutcome where
  result : Except EncodingError DetectionResult
  cache : CacheState
  oracleCalled : Bool
  utf8TierRan : Bool

/-- The sample `DetectEncoding` works on: the input truncated to the
configured sample size (detector.go lines 70–74). -/
def sampleOf (cfg : DetectorConfig) (data : List Nat) : List Nat :=
  if cfg.sampleSize < data.length then data.take cfg.sampleSize else data

/-- detector.go `DetectEncoding`: reject empty input; consult the cache
keyed on the full input; truncate to the sample; then run the BOM tier, the
strict UTF-8 tier, and finally the chardet oracle with best-candidate
selection, support check and minimum-confidence check.  Successful tier
results are cached keyed on the (truncated) sample. -/
def DetectEncoding (cfg : DetectorConfig) (oracle : Oracle) (cache : CacheState)
    (now : Nat) (data : List Nat) : DetectOutcome :=
  if data.length = 0 then
    ⟨.error ⟨"detect", "", .invalidInput⟩, cache, false, false⟩
  else
    match if cfg.enableCache then getCachedResult cfg cache now data else none with
    | some cached => ⟨.ok cached, cache, false, false⟩
    | none =>
      let sample := sampleOf cfg data
      match detectBOM sample with
      | some bomResult =>
        ⟨.ok bomResult, cacheResult cfg cache now sample bomResult, false, false⟩
      | none =>
        match detectUTF8 sample with
        | some utf8Result =>
          ⟨.ok utf8Result, cacheResult cfg cache now sample utf8Result, false, true⟩
        | none =>
          match oracle sample with
          | .error _ => ⟨.error ⟨"detect", "unknown", .chardetFailed⟩, cache, true, true⟩
          | .ok results =>
            if results.length = 0 then
              ⟨.error ⟨"detect", "unknown", .detectionFailed⟩, cache, true, true⟩
            else
              match selectBestResult cfg results with
              | none => ⟨.error ⟨"detect", "unknown", .detectionFailed⟩, cache, true, true⟩
              | some best =>
                if !isEncodingSupported cfg best.encoding then
                  ⟨.error ⟨"detect", best.encoding, .unsupportedEncoding⟩, cache, true, true⟩
                else if best.confidence < cfg.minConfidence then
                  ⟨.error ⟨"detect", best.encoding, .confidenceTooLow⟩, cache, true, true⟩
                else
                  ⟨.ok best, cacheResult cfg cache now sample best, true, true⟩

/-! ## Converter (converter.go) -/

/-- `ConverterConfig` of config.go (the fields the conversion path reads).
The replacement marker is its UTF-8 byte sequence. -/
structure ConverterConfig where
  strictMode : Bool
  invalidCharReplacement : List Nat
  bufferSize : Nat
  maxMemoryUsage : Nat
  chunkSize : Nat
  deriving Repr

/-- An external x/text transformer applied to one complete buffer through
`io.ReadAll(transform.NewReader(bytes.NewReader(buf), t))`.  `NewReader`
resets the transformer, so every such application is independent; on error
the partially transformed prefix is discarded by the callers modelled
here. -/
def Transform : Type := List Nat → Except Unit (List Nat)

/-- An external codec (x/text `encoding.Encoding`): its decoder to UTF-8
and its encoder from UTF-8. -/
structure Codec where
  decoder : Transform
  encoder : Transform

/-- The external codec tables: what `unicode.UTF8`, `charmap.ISO8859_1`,
… provide for each label of the catalog. -/
def CodecRegistry : Type := String → Codec

/-- The labels of converter.go `getEncoding`'s switch (GB2312 shares the
GBK case). -/
def catalogLabels : List String :=
  [EncodingUTF8, EncodingUTF16, EncodingUTF16LE, EncodingUTF16BE,
   EncodingUTF32, EncodingUTF32LE, EncodingUTF32BE,
   EncodingGBK, EncodingGB2312, EncodingGB18030, EncodingBIG5,
   EncodingShiftJIS, EncodingEUCJP, EncodingEUCKR,
   EncodingISO88591, EncodingISO88592, EncodingISO88595, EncodingISO885915,
   EncodingWindows1250, EncodingWindows1251, EncodingWindows1252,
   EncodingWindows1254, EncodingKOI8R, EncodingCP866, EncodingMacintosh]

/-- converter.go `getEncoding`: the catalog switch; an unknown label is
the `unsupported encoding` error. -/
def getEncoding (reg : CodecRegistry) (name : String) : Except String Codec :=
  if catalogLabels.contains name then .ok (reg name) else .error name

/-- The error kinds `Convert` returns (wrapped in `EncodingError` by the
Go code; the wrapper adds only the operation and encoding strings). -/
inductive ConvError where
  | unsupportedEncoding (label : String)
  | insufficientMemory
  | conversionFailed
  | chunkFailed (offset : Nat)
  deriving Repr, DecidableEq

/-- converter.go `transformWithErrorRecovery`: read the input in
buffer-size pieces; a piece that fails to convert contributes the
replacement marker (its converted bytes are discarded); never fails.
With buffer size 0 the first `Read` returns 0 bytes and the loop exits
at once with empty output. -/
def transformWithErrorRecovery (cfg : ConverterConfig) (t : Transform)
    (data : List Nat) : Except ConvError (List Nat) :=
  if cfg.bufferSize = 0 then .ok []
  else .ok (((chunksOf cfg.bufferSize data).map
      (fun piece =>
        match t piece with
        | .ok converted => converted
        | .error _ => cfg.invalidCharReplacement)).flatten)

/-- converter.go `transformSmallData`: one-pass transform; on failure,
strict mode surfaces the error and lenient mode falls back to
`transformWithErrorRecovery`. -/
def transformSmallData (cfg : ConverterConfig) (t : Transform)
    (data : List Nat) : Except ConvError (List Nat) :=
  match t data with
  | .ok result => .ok result
  | .error _ =>
    if cfg.strictMode then .error .conversionFailed
    else transformWithErrorRecovery cfg t data

/-- The chunk loop of converter.go `transformLargeData`: convert each
chunk independently with `transformSmallData`, concatenating results; a
failing chunk aborts with its byte offset. -/
def transformLargeLoop (cfg : ConverterConfig) (t : Transform) :
    Nat → List (List Nat) → Except ConvError (List Nat)
  | _, [] => .ok []
  | offset, c :: cs =>
    match transformSmallData cfg t c with
    | .error _ => .error (.chunkFailed offset)
    | .ok converted =>
      match transformLargeLoop cfg t (offset + cfg.chunkSize) cs with
      | .error e => .error e
      | .ok rest => .ok (converted ++ rest)

/-- converter.go `transformLargeData`: chunked processing at the
configured chunk size. -/
def transformLargeData (cfg : ConverterConfig) (t : Transform)
    (data : List Nat) : Except ConvError (List Nat) :=
  transformLargeLoop cfg t 0 (chunksOf cfg.chunkSize data)

/-- converter.go `doTransform`: memory ceiling check, then the chunked
path for inputs larger than the chunk size, the one-pass path otherwise. -/
def doTransform (cfg : ConverterConfig) (t : Transform)
    (data : List Nat) : Except ConvError (List Nat) :=
  if 0 < cfg.maxMemoryUsage ∧ cfg.maxMemoryUsage < data.length then
    .error .insufficientMemory
  else if cfg.chunkSize < data.length then transformLargeData cfg t data
  else transformSmallData cfg t data

/-- Composition of two buffer transforms (`transform.Chain`). -/
def chainT (t1 t2 : Transform) : Transform := fun x =>
  match t1 x with
  | .ok y => t2 y
  | .error e => .error e

/-- The pipeline choice of `Convert` lines 87–98: encode only when the
source is UTF-8, decode only when the target is UTF-8, chain otherwise. -/
def effTransformer (fromC toC : Codec) (fromLabel toLabel : String) : Transform :=
  if fromLabel = EncodingUTF8 then toC.encoder
  else if toLabel = EncodingUTF8 then fromC.decoder
  else chainT fromC.decoder toC.encoder

/-- converter.go `Convert`: empty input returns empty output at once;
identical labels return the input unchanged; otherwise resolve both
codecs and run `doTransform` over the composed pipeline. -/
def Convert (cfg : ConverterConfig) (reg : CodecRegistry) (data : List Nat)
    (fromLabel toLabel : String) : Except ConvError (List Nat) :=
  if data.length = 0 then .ok []
  else if fromLabel = toLabel then .ok data
  else
    match getEncoding reg fromLabel with
    | .error l => .error (.unsupportedEncoding l)
    | .ok fromC =>
      match getEncoding reg toLabel with
      | .error l => .error (.unsupportedEncoding l)
      | .ok toC => doTransform cfg (effTransformer fromC toC fromLabel toLabel) data

/-! ## Processor (processor.go SmartConvert) -/

/-- `ConvertResult` of types.go (without the wall-clock duration). -/
structure ConvertResult where
  data : List Nat
  sourceEncoding : String
  targetEncoding : String
  bytesProcessed : Nat
  deriving Repr, DecidableEq

/-- The two error sources `SmartConvert` propagates unchanged. -/
inductive ProcError where
  | detectErr (e : EncodingError)
  | convErr (e : ConvError)
  deriving Repr, DecidableEq

/-- processor.go `SmartConvert`: empty input short-circuits to an empty
success attributed to UTF-8; otherwise detect the source encoding, then
convert to the target, propagating either failure. -/
def SmartConvert (dcfg : DetectorConfig) (ccfg : ConverterConfig)
    (reg : CodecRegistry) (oracle : Oracle) (cache : CacheState) (now : Nat)
    (data : List Nat) (target : String) :
    Except ProcError ConvertResult × CacheState :=
  if data.length = 0 then
    (.ok ⟨[], EncodingUTF8, target, 0⟩, cache)
  else
    let d := DetectEncoding dcfg oracle cache now data
    match d.result with
    | .error e => (.error (.detectErr e), d.cache)
    | .ok detection =>
      match Convert ccfg reg data detection.encoding target with
      | .error e => (.error (.convErr e), d.cache)
      | .ok converted =>
        (.ok ⟨converted, detection.encoding, target, data.length⟩, d.cache)

/-! ## Safe file mutator (file processor, writeFileWithRecovery) -/

/-- `FileOperationError` of errors.go: operation name, file path, and the
message of the wrapped error. -/
structure FileOperationError where
  op : String
  file : String
  errMsg : String
  deriving Repr, DecidableEq

/-- The injected outcomes of the filesystem primitives one
`writeFileWithRecovery` call performs (the filesystem is an external
collaborator). -/
structure FSOps where
  writeTemp : Except String Unit
  chmodTemp : Except String Unit
  renameTemp : Except String Unit
  readBackup : Except String (List Nat)
  writeRestore : Except String Unit

/-- The filesystem actions a call attempts, in order (the observable
trace). -/
inductive FAction where
  | actWriteTemp
  | actChmod
  | actRemoveTemp
  | actRename
  | actReadBackup
  | actWriteRestore
  | actChtimes
  deriving Repr, DecidableEq

/-- file processor `restoreFromBackup`: read the backup, write its bytes
over the destination; each step's failure is surfaced with its operation
name. -/
def restoreFromBackup (fs : FSOps) (filename backupFile : String) :
    Except FileOperationError Unit × List FAction :=
  match fs.readBackup with
  | .error e => (.error ⟨"read_backup", backupFile, e⟩, [.actReadBackup])
  | .ok _ =>
    match fs.writeRestore with
    | .error e => (.error ⟨"restore_backup", filename, e⟩, [.actReadBackup, .actWriteRestore])
    | .ok _ => (.ok (), [.actReadBackup, .actWriteRestore])

/-- file processor `writeFileWithRecovery`: write a temp sibling, chmod it
when preserving mode, atomically rename it over the destination.  On
rename failure the temp file is removed, `restoreFromBackup` runs when a
backup path is present — with its returned error discarded — and the
surfaced error carries the rename operation and failure only.  A chtimes
failure after a successful rename is swallowed. -/
def writeFileWithRecovery (fs : FSOps) (filename : String)
    (preserveMode preserveTime hasInfo : Bool) (backupFile : String) :
    Except FileOperationError Unit × List FAction :=
  match fs.writeTemp with
  | .error e => (.error ⟨"write_temp", filename ++ ".tmp", e⟩, [.actWriteTemp])
  | .ok _ =>
    let chmodStep : Except FileOperationError Unit × List FAction :=
      if preserveMode && hasInfo then
        match fs.chmodTemp with
        | .error e =>
          (.error ⟨"chmod", filename ++ ".tmp", e⟩, [.actChmod, .actRemoveTemp])
        | .ok _ => (.ok (), [.actChmod])
      else (.ok (), [])
    match chmodStep with
    | (.error e, tr) => (.error e, .actWriteTemp :: tr)
    | (.ok _, tr) =>
      match fs.renameTemp with
      | .error e =>
        let restoreTrace :=
          if backupFile ≠ "" then (restoreFromBackup fs filename backupFile).2 else []
        (.error ⟨"rename", filename, e⟩,
          .actWriteTemp :: tr ++ [.actRename, .actRemoveTemp] ++ restoreTrace)
      | .ok _ =>
        let timeTrace := if preserveTime && hasInfo then [FAction.actChtimes] else []
        (.ok (), .actWriteTemp :: tr ++ [.actRename] ++ timeTrace)

/-! ## UTF-8 decoding and the spec's per-unit lenient conversion -/

/-- Byte-at-a-time UTF-8 decoding loop.  The state is `some (val,
remaining, lo, hi)` while inside a multi-byte sequence: the value decoded
so far, the number of continuation bytes still expected, and the allowed
range of the next byte. -/
def utf8DecodeLoop : Option (Nat × Nat × Nat × Nat) → List Nat → Option (List Nat)
  | none, [] => some []
  | some _, [] => none
  | some (val, 1, lo, hi), b :: rest =>
    if lo ≤ b ∧ b ≤ hi then
      (utf8DecodeLoop none rest).map ((val * 64 + (b - 0x80)) :: ·)
    else none
  | some (val, r + 2, lo, hi), b :: rest =>
    if lo ≤ b ∧ b ≤ hi then
      utf8DecodeLoop (some (val * 64 + (b - 0x80), r + 1, 0x80, 0xBF)) rest
    else none
  | some (_, 0, _, _), _ :: _ => none
  | none, b :: rest =>
    match utf8Accept b with
    | none => none
    | some (0, _, _) => (utf8DecodeLoop none rest).map (b :: ·)
    | some (1, lo, hi) => utf8DecodeLoop (some (b - 0xC0, 1, lo, hi)) rest
    | some (2, lo, hi) => utf8DecodeLoop (some (b - 0xE0, 2, lo, hi)) rest
    | some (_ + 3, lo, hi) => utf8DecodeLoop (some (b - 0xF0, 3, lo, hi)) rest

/-- Decode a UTF-8 byte list into its codepoints (`none` on malformed
input).  Used to model external codecs and the spec's notion of an
"offending unit" (one codepoint). -/
def utf8Decode (data : List Nat) : Option (List Nat) := utf8DecodeLoop none data

/-- Model of the external x/text ISO-8859-1 encoder applied to a whole
UTF-8 buffer: Latin-1 is the first 256 codepoints; any codepoint above
0xFF makes the encode fail (x/text `RepertoireError`), and a malformed
source buffer fails as well. -/
def iso88591EncoderModel : Transform := fun input =>
  match utf8Decode input with
  | none => .error ()
  | some cps => if cps.all (· ≤ 0xFF) then .ok cps else .error ()

/-- Per-codepoint ISO-8859-1 encoding: `none` marks an offending unit. -/
def iso88591EncodeUnit (cp : Nat) : Option (List Nat) :=
  if cp ≤ 0xFF then some [cp] else none

/-- Modelled from the spec: "lenient mode substitutes a configurable
replacement marker per offending unit and increments an error counter,
continuing to the end of input" — given the per-unit encoder, emit each
unit's encoding or the marker, counting the offending units.  This is the
behaviour the claim asserts of `Convert`; it is compared against the
embedded code. -/
def specLenientPerUnit (marker : List Nat) (encodeUnit : Nat → Option (List Nat))
    (input : List Nat) : Option (List Nat × Nat) :=
  (utf8Decode input).map (fun cps =>
    cps.foldl
      (fun acc cp =>
        match encodeUnit cp with
        | some bs => (acc.1 ++ bs, acc.2)
        | none => (acc.1 ++ marker, acc.2 + 1))
      ([], 0))

/-! ## Default configurations (config.go) and shared scenario data -/

/-- Default cache TTL (`time.Hour`), in the abstract time units used for
timestamps. -/
def DefaultCacheTTL : Nat := 3600

/-- config.go `GetDefaultDetectorConfig`. -/
def GetDefaultDetectorConfig : DetectorConfig :=
  { sampleSize := DefaultSampleSize
    minConfidence := DefaultMinConfidence
    enableCache := true
    cacheSize := DefaultCacheSize
    cacheTTL := DefaultCacheTTL
    supportedEncodings :=
      [EncodingUTF8, EncodingUTF16, EncodingUTF16LE, EncodingUTF16BE,
       EncodingGBK, EncodingGB2312, EncodingGB18030, EncodingBIG5,
       EncodingShiftJIS, EncodingEUCJP, EncodingEUCKR,
       EncodingISO88591, EncodingWindows1252]
    preferredEncodings := [EncodingUTF8, EncodingGBK, EncodingBIG5] }

/-- config.go `GetDefaultConverterConfig`; the replacement marker is the
single byte of `DefaultInvalidChar` ("?"). -/
def GetDefaultConverterConfig : ConverterConfig :=
  { strictMode := false
    invalidCharReplacement := [0x3F]
    bufferSize := DefaultBufferSize
    maxMemoryUsage := 0
    chunkSize := DefaultChunkSize }

/-- A transform is stateless when it maps each byte independently — the
spec's "stateless encoding pair", e.g. a single-byte codec's half of the
pipeline; chunk boundaries cannot then fall inside a multi-byte unit. -/
def statelessTransform (f : Nat → List Nat) : Transform := fun l => .ok (l.flatMap f)

/-- A registry of byte-copying codecs (every label behaves like a raw
single-byte codec); a convenient concrete external-collaborator
instantiation for closed scenarios. -/
def idRegistry : CodecRegistry := fun _ =>
  ⟨statelessTransform (fun b => [b]), statelessTransform (fun b => [b])⟩

/-- Scenario for C1: cache enabled, sample size 4 so that a 5-byte input
is truncated, permissive thresholds. -/
def cfgC1 : DetectorConfig :=
  { sampleSize := 4, minConfidence := 80, supportedEncodings := [],
    enableCache := true, cacheSize := 1000, cacheTTL := 1000000,
    preferredEncodings := [] }

/-- Scenario oracle for C1: chardet ranks the sample as GBK at 90%. -/
def oracleC1 : Oracle := fun _ => .ok [⟨"GBK", 90, "zh"⟩]

/-- Scenario input for C1: five continuation bytes — longer than the
configured sample size, no BOM, not valid UTF-8, so the statistical tier
decides. -/
def dataC1 : List Nat := [0x80, 0x80, 0x80, 0x80, 0x80]

/-- Scenario registry for C2/C6: ISO-8859-1 carries the modelled external
x/text codec; other labels copy bytes. -/
def regC2 : CodecRegistry := fun label =>
  if label = EncodingISO88591 then
    ⟨statelessTransform (fun b => [b]), iso88591EncoderModel⟩
  else ⟨statelessTransform (fun b => [b]), statelessTransform (fun b => [b])⟩

/-- Scenario input for C2: "A€B" in UTF-8; the euro sign U+20AC is the one
offending unit for an ISO-8859-1 target. -/
def dataC2 : List Nat := [0x41, 0xE2, 0x82, 0xAC, 0x42]

/-- Scenario for C3: a detector configured with minimum confidence 0.90. -/
def cfgC3 : DetectorConfig :=
  { sampleSize := 8192, minConfidence := 90, supportedEncodings := [],
    enableCache := true, cacheSize := 1000, cacheTTL := 3600,
    preferredEncodings := [] }

/-- An oracle that ranks nothing (never reached in the C3/C4 scenarios). -/
def emptyOracle : Oracle := fun _ => .ok []

/-- Scenario filesystem for C5: the atomic rename fails, everything else
succeeds — including the restore from backup. -/
def fsRestoreOk : FSOps :=
  ⟨.ok (), .ok (), .error "disk full", .ok [0x61], .ok ()⟩

/-- Scenario filesystem for C5: the atomic rename fails and the restore's
write fails too. -/
def fsRestoreFail : FSOps :=
  ⟨.ok (), .ok (), .error "disk full", .ok [0x61], .error "permission denied"⟩

/-! ## Supporting lemmas -/

/-- With an empty cache the cache gate of `DetectEncoding` yields nothing,
whether or not caching is enabled. -/
theorem cacheGate_none (cfg : DetectorConfig) (now : Nat) (data : List Nat) :
    (if cfg.enableCache then getCachedResult cfg ([] : CacheState) now data else none) = none := by
  cases cfg.enableCache <;> simp [getCachedResult, List.lookup]

/-- Every result the BOM tier produces carries confidence 1.00. -/
theorem detectBOM_confidence (data : List Nat) (r : DetectionResult)
    (h : detectBOM data = some r) : r.confidence = 100 := by
  unfold detectBOM at h
  split at h <;>
    first
      | (rw [Option.some_inj] at h; rw [← h])
      | exact absurd h (by simp)

/-- Every result the strict UTF-8 tier produces carries confidence at
least 0.85. -/
theorem detectUTF8_confidence (data : List Nat) (r : DetectionResult)
    (h : detectUTF8 data = some r) : 85 ≤ r.confidence := by
  unfold detectUTF8 at h
  split at h
  · simp_all
  · split at h
    · rw [Option.some_inj] at h
      subst h
      dsimp only
      split <;> omega
    · simp_all

/-- Concatenating the chunks of a list gives the list back (worker form). -/
theorem chunksOfFuel_flatten :
    ∀ (fuel n : Nat) (l : List α), l.length ≤ fuel → 0 < n →
      (chunksOfFuel fuel n l).flatten = l := by
  intro fuel
  induction fuel with
  | zero =>
    intro n l h _
    have : l = [] := List.length_eq_zero.mp (Nat.le_zero.mp h)
    subst this
    rfl
  | succ fuel ih =>
    intro n l h hn
    cases l with
    | nil => cases n <;> rfl
    | cons a t =>
      cases n with
      | zero => omega
      | succ m =>
        have hlen : ((a :: t).drop (m + 1)).length ≤ fuel := by
          simp only [List.length_drop, List.length_cons] at *
          omega
        simp only [chunksOfFuel, List.flatten_cons, ih (m + 1) _ hlen hn]
        exact List.take_append_drop _ _

/-- Concatenating the chunks of a list gives the list back. -/
theorem chunksOf_flatten (n : Nat) (l : List α) (hn : 0 < n) :
    (chunksOf n l).flatten = l :=
  chunksOfFuel_flatten l.length n l le_rfl hn

/-- A stateless transform never fails, so the one-pass path returns its
byte-wise image. -/
theorem transformSmallData_stateless (cfg : ConverterConfig) (f : Nat → List Nat)
    (data : List Nat) :
    transformSmallData cfg (statelessTransform f) data = .ok (data.flatMap f) := rfl

/-- The chunk loop over a stateless transform concatenates the byte-wise
images of the chunks. -/
theorem transformLargeLoop_stateless (cfg : ConverterConfig) (f : Nat → List Nat) :
    ∀ (chunks : List (List Nat)) (offset : Nat),
      transformLargeLoop cfg (statelessTransform f) offset chunks =
        .ok (chunks.flatten.flatMap f) := by
  intro chunks
  induction chunks with
  | nil => intro offset; rfl
  | cons c cs ih =>
    intro offset
    simp only [transformLargeLoop, transformSmallData_stateless, ih,
      List.flatten_cons, List.flatMap_append]

/-- Over a stateless transform, `doTransform` returns the byte-wise image
whenever the memory ceiling admits the input — whichever path it takes. -/
theorem doTransform_stateless (cfg : ConverterConfig) (f : Nat → List Nat)
    (data : List Nat) (h : 0 < cfg.chunkSize) :
    doTransform cfg (statelessTransform f) data =
      if 0 < cfg.maxMemoryUsage ∧ cfg.maxMemoryUsage < data.length then
        .error .insufficientMemory
      else .ok (data.flatMap f) := by
  unfold doTransform
  split
  · rfl
  · split
    · unfold transformLargeData
      rw [transformLargeLoop_stateless, chunksOf_flatten _ _ h]
    · exact transformSmallData_stateless cfg f data

/-- A restore attempt always begins by reading the backup file. -/
theorem restoreFromBackup_reads (fs : FSOps) (fname backup : String) :
    FAction.actReadBackup ∈ (restoreFromBackup fs fname backup).2 := by
  unfold restoreFromBackup
  rcases fs.readBackup with e | d
  · simp
  · rcases fs.writeRestore with e | u <;> simp

/-! ## Claims -/

/-- C9: identity law — for every byte buffer (including the empty one) and
every label X, `Convert(data, X, X)` succeeds and returns the input bytes
unchanged: the empty-input branch returns an empty slice and the
`from == to` branch returns the data before any label validation. -/
theorem C9_convert_identity (cfg : ConverterConfig) (reg : CodecRegistry)
    (data : List Nat) (X : String) :
    Convert cfg reg data X X = .ok data := by
  cases data with
  | nil => rfl
  | cons a t => simp [Convert]

/-- C10: for the empty buffer, `Convert([], from, to)` returns empty output
and no error for all labels — including labels outside the supported
catalog and `from ≠ to` — because the empty-input branch returns before any
encoding-label validation, so an unsupported label never produces
UnsupportedEncoding on empty input. -/
theorem C10_convert_empty_skips_validation (cfg : ConverterConfig)
    (reg : CodecRegistry) (fromLabel toLabel : String) :
    Convert cfg reg ([] : List Nat) fromLabel toLabel = .ok [] := rfl

/-- C5 counterexample: with the rename failing and a backup present, the
surfaced error is identical whether the restore succeeds or its write
fails — it carries only the rename operation and message, so it cannot
name the restore outcome, contrary to the claim. -/
theorem C5_counterexample :
    (writeFileWithRecovery fsRestoreOk "f.txt" true true true "f.txt.bak").1 =
      .error ⟨"rename", "f.txt", "disk full"⟩ ∧
    (writeFileWithRecovery fsRestoreFail "f.txt" true true true "f.txt.bak").1 =
      .error ⟨"rename", "f.txt", "disk full"⟩ := by
  constructor <;> rfl

/-- C5 (amended): when the atomic rename fails after a successful temp
write (and chmod), the temp file is removed and, when a backup path is
present, a restore from the backup is attempted — but its outcome is
discarded and the single surfaced error names only the rename failure. -/
theorem C5_rename_failure_recovery (fs : FSOps) (fname : String)
    (pm pt hi : Bool) (backup m : String)
    (hw : fs.writeTemp = .ok ()) (hc : fs.chmodTemp = .ok ())
    (hr : fs.renameTemp = .error m) (hb : backup ≠ "") :
    (writeFileWithRecovery fs fname pm pt hi backup).1 = .error ⟨"rename", fname, m⟩ ∧
    FAction.actRemoveTemp ∈ (writeFileWithRecovery fs fname pm pt hi backup).2 ∧
    FAction.actReadBackup ∈ (writeFileWithRecovery fs fname pm pt hi backup).2 := by
  unfold writeFileWithRecovery
  rw [hw, hr]
  cases hpm : pm && hi
  · simp only [Bool.false_eq_true, if_neg, if_pos hb]
    refine ⟨rfl, by simp, ?_⟩
    simp [restoreFromBackup_reads]
  · rw [hc]
    simp only [if_pos hb]
    refine ⟨rfl, by simp, ?_⟩
    simp [restoreFromBackup_reads]

/-- C5 witness: the amended recovery behaviour instantiated on a failing
rename with a present backup whose restore write also fails. -/
theorem C5_rename_failure_recovery_witness :
    fsRestoreFail.writeTemp = .ok () ∧
    fsRestoreFail.chmodTemp = .ok () ∧
    fsRestoreFail.renameTemp = .error "disk full" ∧
    ("f.txt.bak" : String) ≠ "" ∧
    ((writeFileWithRecovery fsRestoreFail "f.txt" true true true "f.txt.bak").1 =
        .error ⟨"rename", "f.txt", "disk full"⟩ ∧
      FAction.actRemoveTemp ∈
        (writeFileWithRecovery fsRestoreFail "f.txt" true true true "f.txt.bak").2 ∧
      FAction.actReadBackup ∈
        (writeFileWithRecovery fsRestoreFail "f.txt" true true true "f.txt.bak").2) :=
  ⟨rfl, rfl, rfl, by decide,
   C5_rename_failure_recovery fsRestoreFail "f.txt" true true true "f.txt.bak"
     "disk full" rfl rfl rfl (by decide)⟩

/-- C4 counterexample: on the empty buffer `SmartConvert` succeeds with an
empty result attributed to UTF-8, while `DetectEncoding` on the same
buffer fails with InvalidInput — so "succeeds exactly when detection and
conversion succeed" does not extend to the empty-input case. -/
theorem C4_counterexample :
    (SmartConvert GetDefaultDetectorConfig GetDefaultConverterConfig idRegistry
        emptyOracle [] 0 [] EncodingUTF8).1 =
      .ok ⟨[], EncodingUTF8, EncodingUTF8, 0⟩ ∧
    (DetectEncoding GetDefaultDetectorConfig emptyOracle [] 0 []).result =
      .error ⟨"detect", "", .invalidInput⟩ := by
  constructor <;> rfl

/-- C4 (amended): for every non-empty buffer, `SmartConvert` is exactly
the composition detect-then-convert — it fails with the detection error
when detection fails, fails with the conversion error when conversion of
the input from the detected encoding fails, and otherwise returns the
converted bytes of `Convert(data, detected.encoding, target)`; the empty
buffer is special-cased to a trivial success without detection. -/
theorem C4_smartconvert_composition (dcfg : DetectorConfig) (ccfg : ConverterConfig)
    (reg : CodecRegistry) (oracle : Oracle) (cache : CacheState) (now : Nat)
    (data : List Nat) (target : String) (h : data.length ≠ 0) :
    (SmartConvert dcfg ccfg reg oracle cache now data target).1 =
      (match (DetectEncoding dcfg oracle cache now data).result with
       | .error e => .error (.detectErr e)
       | .ok detection =>
         match Convert ccfg reg data detection.encoding target with
         | .error e => .error (.convErr e)
         | .ok converted => .ok ⟨converted, detection.encoding, target, data.length⟩) := by
  unfold SmartConvert
  rw [if_neg h]
  cases hd : (DetectEncoding dcfg oracle cache now data).result with
  | error e => simp only [hd]
  | ok detection =>
    simp only [hd]
    cases hc : Convert ccfg reg data detection.encoding target <;> simp only [hc]

/-- C4 witness: a concrete non-empty one-byte ASCII buffer instantiating
the amended composition law. -/
theorem C4_smartconvert_composition_witness :
    ([0x41] : List Nat).length ≠ 0 ∧
    (SmartConvert GetDefaultDetectorConfig GetDefaultConverterConfig idRegistry
        emptyOracle [] 0 [0x41] EncodingUTF8).1 =
      (match (DetectEncoding GetDefaultDetectorConfig emptyOracle [] 0 [0x41]).result with
       | .error e => .error (.detectErr e)
       | .ok detection =>
         match Convert GetDefaultConverterConfig idRegistry [0x41] detection.encoding
             EncodingUTF8 with
         | .error e => .error (.convErr e)
         | .ok converted => .ok ⟨converted, detection.encoding, EncodingUTF8, 1⟩) :=
  ⟨by decide,
   C4_smartconvert_composition GetDefaultDetectorConfig GetDefaultConverterConfig
     idRegistry emptyOracle [] 0 [0x41] EncodingUTF8 (by decide)⟩

/-- C2 counterexample: lenient conversion of UTF-8 "A€B" to ISO-8859-1,
where the euro sign is the single offending unit, returns one replacement
marker for the whole failing buffer chunk and discards the convertible
"A" and "B" — not the per-offending-unit substitution (with error count 1)
the claim describes; `Convert` also returns no error count at all. -/
theorem C2_counterexample :
    Convert GetDefaultConverterConfig regC2 dataC2 EncodingUTF8 EncodingISO88591 =
      .ok [0x3F] ∧
    specLenientPerUnit [0x3F] iso88591EncodeUnit dataC2 = some ([0x41, 0x3F, 0x42], 1) ∧
    ([0x3F] : List Nat) ≠ [0x41, 0x3F, 0x42] := by
  refine ⟨rfl, rfl, by decide⟩

/-- C2 (amended): in lenient (non-strict) mode, for input whose one-pass
transform fails, `Convert` substitutes the configured replacement marker
once per failing BufferSize-sized chunk (discarding that chunk's
convertible bytes), keeps the converted bytes of chunks that succeed,
continues to the end of the input, and returns the output with no error —
no error count is surfaced, since `Convert` returns bytes only. -/
theorem C2_lenient_marker_per_chunk (cfg : ConverterConfig) (reg : CodecRegistry)
    (data : List Nat) (fromLabel toLabel : String)
    (hstrict : cfg.strictMode = false) (hbuf : 0 < cfg.bufferSize)
    (hmem : cfg.maxMemoryUsage = 0) (hsize : data.length ≤ cfg.chunkSize)
    (hne : fromLabel ≠ toLabel)
    (hfrom : catalogLabels.contains fromLabel = true)
    (hto : catalogLabels.contains toLabel = true)
    (hfail : effTransformer (reg fromLabel) (reg toLabel) fromLabel toLabel data =
      .error ()) :
    Convert cfg reg data fromLabel toLabel =
      .ok (((chunksOf cfg.bufferSize data).map
        (fun piece =>
          match effTransformer (reg fromLabel) (reg toLabel) fromLabel toLabel piece with
          | .ok converted => converted
          | .error _ => cfg.invalidCharReplacement)).flatten) := by
  unfold Convert
  by_cases hlen : data.length = 0
  · rw [if_pos hlen]
    rw [List.length_eq_zero] at hlen
    subst hlen
    rfl
  · rw [if_neg hlen, if_neg hne]
    unfold getEncoding
    rw [hfrom, hto]
    simp only [if_true]
    unfold doTransform
    rw [if_neg (by omega), if_neg (by omega)]
    unfold transformSmallData
    rw [hfail, if_neg (by simp [hstrict])]
    unfold transformWithErrorRecovery
    rw [if_neg (by omega)]

/-- C2 witness: the amended per-chunk lenient behaviour instantiated on
UTF-8 "A€B" to ISO-8859-1 under the default lenient configuration. -/
theorem C2_lenient_marker_per_chunk_witness :
    GetDefaultConverterConfig.strictMode = false ∧
    0 < GetDefaultConverterConfig.bufferSize ∧
    GetDefaultConverterConfig.maxMemoryUsage = 0 ∧
    dataC2.length ≤ GetDefaultConverterConfig.chunkSize ∧
    EncodingUTF8 ≠ EncodingISO88591 ∧
    catalogLabels.contains EncodingUTF8 = true ∧
    catalogLabels.contains EncodingISO88591 = true ∧
    effTransformer (regC2 EncodingUTF8) (regC2 EncodingISO88591) EncodingUTF8
        EncodingISO88591 dataC2 = .error () ∧
    Convert GetDefaultConverterConfig regC2 dataC2 EncodingUTF8 EncodingISO88591 =
      .ok (((chunksOf GetDefaultConverterConfig.bufferSize dataC2).map
        (fun piece =>
          match effTransformer (regC2 EncodingUTF8) (regC2 EncodingISO88591)
              EncodingUTF8 EncodingISO88591 piece with
          | .ok converted => converted
          | .error _ => GetDefaultConverterConfig.invalidCharReplacement)).flatten) :=
  ⟨rfl, by decide, rfl, by decide, by decide, by decide, by decide, rfl,
   C2_lenient_marker_per_chunk GetDefaultConverterConfig regC2 dataC2 EncodingUTF8
     EncodingISO88591 rfl (by decide) rfl (by decide) (by decide) (by decide)
     (by decide) rfl⟩

/-- C6: for every buffer and a stateless encoding pair (the effective
transformer maps each byte independently), converting with a small chunk
size — so the chunked path runs — produces output byte-identical to
converting with a chunk size at least as large as the buffer (the
single-pass path), given the same memory ceiling. -/
theorem C6_chunked_matches_single (cfg1 cfg2 : ConverterConfig) (reg : CodecRegistry)
    (f : Nat → List Nat) (data : List Nat) (fromLabel toLabel : String)
    (h1 : 0 < cfg1.chunkSize) (h2 : data.length ≤ cfg2.chunkSize)
    (hm : cfg1.maxMemoryUsage = cfg2.maxMemoryUsage)
    (hs : effTransformer (reg fromLabel) (reg toLabel) fromLabel toLabel =
      statelessTransform f) :
    Convert cfg1 reg data fromLabel toLabel = Convert cfg2 reg data fromLabel toLabel := by
  unfold Convert
  by_cases hlen : data.length = 0
  · rw [if_pos hlen, if_pos hlen]
  · rw [if_neg hlen, if_neg hlen]
    by_cases heq : fromLabel = toLabel
    · rw [if_pos heq, if_pos heq]
    · rw [if_neg heq, if_neg heq]
      cases hfrom : getEncoding reg fromLabel with
      | error l => rfl
      | ok fromC =>
        cases hto : getEncoding reg toLabel with
        | error l => rfl
        | ok toC =>
          have hfromC : fromC = reg fromLabel := by
            unfold getEncoding at hfrom
            split at hfrom
            · exact (Except.ok.injEq _ _).mp hfrom.symm
            · exact absurd hfrom (by simp)
          have htoC : toC = reg toLabel := by
            unfold getEncoding at hto
            split at hto
            · exact (Except.ok.injEq _ _).mp hto.symm
            · exact absurd hto (by simp)
          subst hfromC htoC
          dsimp only
          rw [hs]
          rw [doTransform_stateless cfg1 f data h1]
          unfold doTransform
          rw [if_neg (Nat.not_lt.mpr h2)]
          rw [transformSmallData_stateless, hm]

/-- C6 witness: a five-byte buffer through a stateless byte-copying codec
pair, chunk size 1 (chunked into five pieces) versus chunk size 100
(single pass). -/
theorem C6_chunked_matches_single_witness :
    0 < ({ GetDefaultConverterConfig with chunkSize := 1 } : ConverterConfig).chunkSize ∧
    ([1, 2, 3, 4, 5] : List Nat).length ≤
      ({ GetDefaultConverterConfig with chunkSize := 100 } : ConverterConfig).chunkSize ∧
    ({ GetDefaultConverterConfig with chunkSize := 1 } : ConverterConfig).maxMemoryUsage =
      ({ GetDefaultConverterConfig with chunkSize := 100 } : ConverterConfig).maxMemoryUsage ∧
    effTransformer (idRegistry EncodingISO88591) (idRegistry EncodingUTF8)
        EncodingISO88591 EncodingUTF8 = statelessTransform (fun b => [b]) ∧
    Convert { GetDefaultConverterConfig with chunkSize := 1 } idRegistry
        [1, 2, 3, 4, 5] EncodingISO88591 EncodingUTF8 =
      Convert { GetDefaultConverterConfig with chunkSize := 100 } idRegistry
        [1, 2, 3, 4, 5] EncodingISO88591 EncodingUTF8 :=
  ⟨by decide, by decide, rfl, rfl,
   C6_chunked_matches_single { GetDefaultConverterConfig with chunkSize := 1 }
     { GetDefaultConverterConfig with chunkSize := 100 } idRegistry (fun b => [b])
     [1, 2, 3, 4, 5] EncodingISO88591 EncodingUTF8 (by decide) (by decide) rfl rfl⟩

/-- C3 counterexample: with the minimum confidence configured at 0.90, the
pure-ASCII input "abc" is detected successfully by the strict UTF-8 tier
with confidence 0.85 — below the configured threshold — because the
threshold check applies only to the statistical tier. -/
theorem C3_counterexample :
    (DetectEncoding cfgC3 emptyOracle [] 0 [0x61, 0x62, 0x63]).result =
      .ok ⟨EncodingUTF8, 85, "", "utf8_validation", false, false⟩ ∧
    85 < cfgC3.minConfidence := by
  constructor
  · rfl
  · decide

/-- C3 (amended): the MinConfidence threshold is enforced only on the
statistical (chardet) tier; BOM-tier results carry confidence 1.0 and
strict-UTF-8-tier results 0.99 or 0.85 without any threshold check, so a
successful fresh (empty-cache) detection is guaranteed only confidence ≥
min(MinConfidence, 0.85). -/
theorem C3_threshold_only_statistical (cfg : DetectorConfig) (oracle : Oracle)
    (now : Nat) (data : List Nat) (r : DetectionResult)
    (h : (DetectEncoding cfg oracle ([] : CacheState) now data).result = .ok r) :
    min cfg.minConfidence 85 ≤ r.confidence := by
  unfold DetectEncoding at h
  by_cases hlen : data.length = 0
  · rw [if_pos hlen] at h
    exact absurd h (by simp)
  · rw [if_neg hlen, cacheGate_none] at h
    dsimp only at h
    cases hbom : detectBOM (sampleOf cfg data) with
    | some b =>
      rw [hbom] at h
      dsimp only at h
      injection h with h
      subst h
      have := detectBOM_confidence _ _ hbom
      omega
    | none =>
      rw [hbom] at h
      dsimp only at h
      cases hutf : detectUTF8 (sampleOf cfg data) with
      | some u =>
        rw [hutf] at h
        dsimp only at h
        injection h with h
        subst h
        have := detectUTF8_confidence _ _ hutf
        omega
      | none =>
        rw [hutf] at h
        dsimp only at h
        cases ho : oracle (sampleOf cfg data) with
        | error e =>
          rw [ho] at h
          exact absurd h (by simp)
        | ok results =>
          rw [ho] at h
          dsimp only at h
          by_cases hres : results.length = 0
          · rw [if_pos hres] at h
            exact absurd h (by simp)
          · rw [if_neg hres] at h
            cases hb : selectBestResult cfg results with
            | none =>
              rw [hb] at h
              exact absurd h (by simp)
            | some best =>
              rw [hb] at h
              dsimp only at h
              by_cases hsup : (!isEncodingSupported cfg best.encoding) = true
              · rw [if_pos hsup] at h
                exact absurd h (by simp)
              · rw [if_neg hsup] at h
                by_cases hconf : best.confidence < cfg.minConfidence
                · rw [if_pos hconf] at h
                  exact absurd h (by simp)
                · rw [if_neg hconf] at h
                  dsimp only at h
                  injection h with h
                  subst h
                  omega

/-- C3 witness: the amended floor instantiated at the 0.90-threshold
configuration on "abc": the successful result's confidence 0.85 meets
min(0.90, 0.85). -/
theorem C3_threshold_only_statistical_witness :
    (DetectEncoding cfgC3 emptyOracle ([] : CacheState) 0 [0x61, 0x62, 0x63]).result =
      .ok ⟨EncodingUTF8, 85, "", "utf8_validation", false, false⟩ ∧
    min cfgC3.minConfidence 85 ≤
      (⟨EncodingUTF8, 85, "", "utf8_validation", false, false⟩ : DetectionResult).confidence :=
  ⟨rfl, C3_threshold_only_statistical cfgC3 emptyOracle 0 [0x61, 0x62, 0x63] _ rfl⟩

/-- C7: on a fresh cache, every non-empty input whose prefix is the UTF-8
byte-order mark EF BB BF (with the sample size covering the mark, as the
8192-byte default does) is detected as UTF-8 with confidence exactly 1.0
by the BOM tier, and the later tiers are short-circuited: the strict
UTF-8 validator never runs and the statistical oracle is not invoked. -/
theorem C7_utf8_bom_short_circuits (cfg : DetectorConfig) (oracle : Oracle)
    (now : Nat) (rest : List Nat) (hss : 3 ≤ cfg.sampleSize) :
    (DetectEncoding cfg oracle ([] : CacheState) now
        (0xEF :: 0xBB :: 0xBF :: rest)).result =
      .ok ⟨EncodingUTF8, 100, "", "bom_detection", true, false⟩ ∧
    (DetectEncoding cfg oracle ([] : CacheState) now
        (0xEF :: 0xBB :: 0xBF :: rest)).oracleCalled = false ∧
    (DetectEncoding cfg oracle ([] : CacheState) now
        (0xEF :: 0xBB :: 0xBF :: rest)).utf8TierRan = false := by
  have hsample : ∃ t, sampleOf cfg (0xEF :: 0xBB :: 0xBF :: rest) =
      0xEF :: 0xBB :: 0xBF :: t := by
    by_cases hlt : cfg.sampleSize < (0xEF :: 0xBB :: 0xBF :: rest).length
    · refine ⟨rest.take (cfg.sampleSize - 3), ?_⟩
      unfold sampleOf
      rw [if_pos hlt]
      obtain ⟨k, hk⟩ : ∃ k, cfg.sampleSize = k + 3 := ⟨cfg.sampleSize - 3, by omega⟩
      rw [hk]
      have hk3 : k + 3 - 3 = k := by omega
      rw [hk3]
      rfl
    · exact ⟨rest, by unfold sampleOf; rw [if_neg hlt]⟩
  obtain ⟨t, ht⟩ := hsample
  have hout : DetectEncoding cfg oracle ([] : CacheState) now
      (0xEF :: 0xBB :: 0xBF :: rest) =
      ⟨.ok ⟨EncodingUTF8, 100, "", "bom_detection", true, false⟩,
       cacheResult cfg [] now (0xEF :: 0xBB :: 0xBF :: t)
         ⟨EncodingUTF8, 100, "", "bom_detection", true, false⟩, false, false⟩ := by
    unfold DetectEncoding
    rw [if_neg (by simp), cacheGate_none]
    dsimp only
    rw [ht]
    rfl
  exact ⟨by rw [hout], by rw [hout], by rw [hout]⟩

/-- C7 witness: the default detector configuration on the four-byte input
EF BB BF 41. -/
theorem C7_utf8_bom_short_circuits_witness :
    3 ≤ GetDefaultDetectorConfig.sampleSize ∧
    (DetectEncoding GetDefaultDetectorConfig emptyOracle ([] : CacheState) 0
        (0xEF :: 0xBB :: 0xBF :: [0x41])).result =
      .ok ⟨EncodingUTF8, 100, "", "bom_detection", true, false⟩ ∧
    (DetectEncoding GetDefaultDetectorConfig emptyOracle ([] : CacheState) 0
        (0xEF :: 0xBB :: 0xBF :: [0x41])).oracleCalled = false ∧
    (DetectEncoding GetDefaultDetectorConfig emptyOracle ([] : CacheState) 0
        (0xEF :: 0xBB :: 0xBF :: [0x41])).utf8TierRan = false :=
  ⟨by decide,
   C7_utf8_bom_short_circuits GetDefaultDetectorConfig emptyOracle 0 [0x41] (by decide)⟩

/-- C8: on a fresh cache, every non-empty input without a recognized BOM
whose (truncated, non-degenerate) sample is entirely valid UTF-8 is
detected as UTF-8 with confidence exactly 0.99 when the sample contains a
byte above 127 and exactly 0.85 when it is pure ASCII; either way the
confidence is at least 0.85. -/
theorem C8_utf8_tier_confidence (cfg : DetectorConfig) (oracle : Oracle)
    (now : Nat) (data : List Nat)
    (hlen : data.length ≠ 0) (hpos : 0 < cfg.sampleSize)
    (hbom : detectBOM (sampleOf cfg data) = none)
    (hval : utf8Valid (sampleOf cfg data) = true) :
    (DetectEncoding cfg oracle ([] : CacheState) now data).result =
      .ok ⟨EncodingUTF8,
           if (sampleOf cfg data).any (fun b => 127 < b) then 99 else 85,
           "", "utf8_validation", false,
           (sampleOf cfg data).any (fun b => 127 < b)⟩ ∧
    85 ≤ (if (sampleOf cfg data).any (fun b => 127 < b) then 99 else 85 : Nat) := by
  have hslen : (sampleOf cfg data).length ≠ 0 := by
    unfold sampleOf
    split
    · rw [List.length_take]
      omega
    · exact hlen
  have hutf : detectUTF8 (sampleOf cfg data) =
      some ⟨EncodingUTF8,
            if (sampleOf cfg data).any (fun b => 127 < b) then 99 else 85,
            "", "utf8_validation", false,
            (sampleOf cfg data).any (fun b => 127 < b)⟩ := by
    unfold detectUTF8
    rw [if_neg hslen, if_pos hval]
  refine ⟨?_, by split <;> omega⟩
  unfold DetectEncoding
  rw [if_neg hlen, cacheGate_none]
  dsimp only
  rw [hbom, hutf]

/-- C8 witness: the default configuration on the two-byte non-ASCII valid
UTF-8 input C3 A9 ("é"), detected at confidence 0.99. -/
theorem C8_utf8_tier_confidence_witness :
    ([0xC3, 0xA9] : List Nat).length ≠ 0 ∧
    0 < GetDefaultDetectorConfig.sampleSize ∧
    detectBOM (sampleOf GetDefaultDetectorConfig [0xC3, 0xA9]) = none ∧
    utf8Valid (sampleOf GetDefaultDetectorConfig [0xC3, 0xA9]) = true ∧
    (DetectEncoding GetDefaultDetectorConfig emptyOracle ([] : CacheState) 0
        [0xC3, 0xA9]).result =
      .ok ⟨EncodingUTF8,
           if (sampleOf GetDefaultDetectorConfig [0xC3, 0xA9]).any
               (fun b => 127 < b) then 99 else 85,
           "", "utf8_validation", false,
           (sampleOf GetDefaultDetectorConfig [0xC3, 0xA9]).any (fun b => 127 < b)⟩ ∧
    85 ≤ (if (sampleOf GetDefaultDetectorConfig [0xC3, 0xA9]).any
        (fun b => 127 < b) then 99 else 85 : Nat) := by
  refine ⟨by decide, by decide, by decide, by decide, ?_⟩
  exact C8_utf8_tier_confidence GetDefaultDetectorConfig emptyOracle 0 [0xC3, 0xA9]
    (by decide) (by decide) (by decide) (by decide)

set_option maxRecDepth 1000000 in
/-- C1: with caching enabled and an input one byte longer than the
configured sample size, the two successive `DetectEncoding` calls do
return identical results, but the second call invokes the chardet oracle
again: the cache lookup hashes the full input while the store hashes the
truncated sample, so the lookup key and the store key disagree and the
memoized result is never found.  This refutes the claim's "the second
call does not invoke the external chardet oracle … for all input
sizes". -/
theorem C1_second_call_reinvokes_oracle :
    (DetectEncoding cfgC1 oracleC1
        (DetectEncoding cfgC1 oracleC1 ([] : CacheState) 0 dataC1).cache 1
        dataC1).result =
      (DetectEncoding cfgC1 oracleC1 ([] : CacheState) 0 dataC1).result ∧
    (DetectEncoding cfgC1 oracleC1
        (DetectEncoding cfgC1 oracleC1 ([] : CacheState) 0 dataC1).cache 1
        dataC1).oracleCalled = true ∧
    generateCacheKey dataC1 ≠ generateCacheKey (sampleOf cfgC1 dataC1) := by
  refine ⟨rfl, rfl, by decide⟩

end EncProc
